import Mathlib

/-!
Verification of the txscript execution engine (`src/cos/txscript/engine.go`)
against its natural-language specification.

The engine itself (`engine.go`) is embedded faithfully below.  Its
collaborators — the opcode table (`opcode.go`), the value/frame stacks
(`stack.go`), the parser and the `bc` package — are not part of the given
source; following the specification they are treated as external
collaborators: opcode metadata becomes fields of `parsedOpcode`, the parser
becomes a function parameter, and the stack primitives are modelled from the
specification's description (definitions so modelled say this in their doc
comments).  Bytes are modelled as `Nat`, byte slices as `List Nat`,
Go `int`/`int64` as `Int`.
-/

namespace TxScript

/-- Errors returned by the engine.  Each constructor names one of the typed
script errors of the package (`ErrStackOpDisabled`, `ErrStackReservedOpcode`,
…).  `runtimePanic` stands for a Go runtime panic (out-of-range slice index),
which is not a returned error in Go; `outOfFuel` is a modelling artifact for
the fuel-bounded execution loop and corresponds to no Go behaviour. -/
inductive ScriptError where
  | opDisabled        -- ErrStackOpDisabled
  | reservedOpcode    -- ErrStackReservedOpcode
  | tooManyOperations -- ErrStackTooManyOperations
  | elementTooBig     -- ErrStackElementTooBig
  | scriptUnfinished  -- ErrStackScriptUnfinished
  | emptyStack        -- ErrStackEmptyStack
  | scriptFailed      -- ErrStackScriptFailed
  | invalidIndex      -- ErrInvalidIndex
  | longScript        -- ErrStackLongScript
  | invalidHashType   -- "invalid hashtype" error of checkHashTypeEncoding
  | stackOverflow     -- ErrStackOverflow
  | parseError        -- a script-parse error, propagated verbatim by Prepare
  | runtimePanic      -- Go runtime panic (no corresponding returned error)
  | outOfFuel         -- modelling artifact of the fuel-bounded loop
  deriving DecidableEq, Repr

/-- Modelled from the spec: condition-stack tags of the per-frame branch
tracker ("active, inactive, or in a loop-like active state"); `opcode.go` is
not under the given source.  The engine itself only distinguishes the two
active tags `OpCondIfTrue` and `OpCondWhileTrue`. -/
inductive OpCond where
  | ifTrue     -- OpCondIfTrue: active branch of a conditional
  | ifFalse    -- inactive branch of a conditional
  | whileTrue  -- OpCondWhileTrue: loop-like active state
  | whileFalse -- inactive loop state
  deriving DecidableEq, Repr

/-- A parsed opcode.  `opcode.go` is external: the opcode metadata the engine
consults (`pop.opcode.value`, `pop.data`, `pop.isDisabled(version, inBlock)`,
`pop.alwaysIllegal()`, `pop.isConditional()`) becomes fields, so every
possible opcode table is covered.  The handler `pop.opcode.opfunc` is the
external dispatcher; `executeOpcode` below stops at the dispatch boundary. -/
structure parsedOpcode where
  value : Nat                      -- pop.opcode.value
  data : List Nat                  -- pop.data
  isDisabled : Int → Bool → Bool   -- pop.isDisabled(version, vm.block != nil)
  alwaysIllegal : Bool             -- pop.alwaysIllegal()
  isConditional : Bool             -- pop.isConditional()

/-- Modelled from the spec: one execution frame (`stack.go` is not under the
given source): the parsed opcode sequence, a program counter and the frame's
own condition stack (top of the condition stack is the last element, matching
`s[len(s)-1]` in `isBranchExecuting`). -/
structure stackFrame where
  script : List parsedOpcode
  pc : Nat
  condStack : List OpCond

/-- A transaction input: the engine reads only its witness. -/
structure TxInput where
  InputWitness : List (List Nat)

/-- A transaction output: the engine reads only its amount (`uint64`). -/
structure TxOutput where
  Amount : Nat

/-- Transaction data: the fields `engine.go` touches. -/
structure TxData where
  Inputs : List TxInput
  Outputs : List TxOutput

/-- The script engine state (struct `Engine`).  The execution stack is a list
of frames with the top frame first; the data and alternate stacks are lists
of byte arrays with the top element first.  `block` only matters to the
engine through presence (`vm.block != nil`), `sigHasher` through being set. -/
structure Engine where
  scriptVersion : List Nat
  scriptVersionVal : Int            -- scriptNum is int64
  estack : List stackFrame          -- execution stack, head = top
  dstack : List (List Nat)          -- data stack, head = top
  astack : List (List Nat)          -- alternate data stack, head = top
  tx : Option TxData
  block : Option Unit
  sigHasher : Bool
  txIdx : Int
  numOps : Nat
  flags : Nat                       -- ScriptFlags bitmask
  available : List Nat              -- mutable copy of each output's Amount

/-- Flag `ScriptStrictMultiSig = 1 << iota` with iota = 0. -/
def ScriptStrictMultiSig : Nat := 1
/-- Flag `ScriptDiscourageUpgradableNops` (iota = 1). -/
def ScriptDiscourageUpgradableNops : Nat := 2
/-- Flag `ScriptVerifyDERSignatures` (iota = 2). -/
def ScriptVerifyDERSignatures : Nat := 4
/-- Flag `ScriptVerifyLowS` (iota = 3). -/
def ScriptVerifyLowS : Nat := 8
/-- Flag `ScriptVerifySigPushOnly` (iota = 4). -/
def ScriptVerifySigPushOnly : Nat := 16
/-- Flag `ScriptVerifyStrictEncoding` (iota = 5). -/
def ScriptVerifyStrictEncoding : Nat := 32

/-- Constant `maxExecutionStackSize = 10`. -/
def maxExecutionStackSize : Nat := 10

/-- Modelled from the spec: the largest "push small integer" opcode value
(`OP_16`, from the external opcode table); the standard value is 0x60. -/
def OP_16 : Nat := 0x60

/-- Modelled from the spec: `MAX_OPS_PER_SCRIPT` (external constant
`maxOpsPerScript`); the standard value is 201. -/
def maxOpsPerScript : Nat := 201

/-- Modelled from the spec: `MAX_SCRIPT_ELEMENT_SIZE` (external constant
`MaxScriptElementSize`); the standard value is 520. -/
def MaxScriptElementSize : Nat := 520

/-- Modelled from the spec: `MAX_PROGRAM_BYTES` (external constant
`bc.MaxProgramByteLength`). -/
def MaxProgramByteLength : Nat := 10000

/-- Function `isKnownVersion(version int64) bool`: `version >= 0 && version <= 2`. -/
def isKnownVersion (version : Int) : Bool :=
  version ≥ 0 && version ≤ 2

/-- Method `(vm *Engine) currentVersion() scriptNum`. -/
def Engine.currentVersion (vm : Engine) : Int :=
  vm.scriptVersionVal

/-- Method `(vm *Engine) hasFlag(flag ScriptFlags) bool`: `vm.flags&flag == flag`. -/
def Engine.hasFlag (vm : Engine) (flag : Nat) : Bool :=
  vm.flags &&& flag == flag

/-- Modelled from the spec: `scriptStack.Peek` returns the top frame
(`stack.go` is not under the given source).  Go panics when the execution
stack is empty; the model totalises with an empty frame — the engine only
peeks while a frame is running. -/
def estackPeek (s : List stackFrame) : stackFrame :=
  s.headD ⟨[], 0, []⟩

/-- Method `(vm *Engine) isBranchExecuting() bool`: true when the top frame's
condition stack is empty or its top tag (`s[len(s)-1]`) is `OpCondIfTrue` or
`OpCondWhileTrue`. -/
def Engine.isBranchExecuting (vm : Engine) : Bool :=
  let s := (estackPeek vm.estack).condStack
  match s.getLast? with
  | none => true
  | some v => v == OpCond.ifTrue || v == OpCond.whileTrue

/-- What `executeOpcode` did at the dispatch boundary: `skip` is the
`return nil` taken when the branch is not executing and the opcode is not
conditional; `dispatch` is the tail call `pop.opcode.opfunc(pop, vm)` into
the external opcode handler. -/
inductive ExecResult where
  | err (e : ScriptError)
  | skip
  | dispatch
  deriving DecidableEq, Repr

/-- Method `(vm *Engine) executeOpcode(pop *parsedOpcode)`: legality checks, then
unconditional cost accounting, then the branch-gating skip, then dispatch.
Returns the engine as mutated up to the dispatch boundary together with the
outcome. -/
def Engine.executeOpcode (vm : Engine) (pop : parsedOpcode) :
    Engine × ExecResult :=
  if pop.isDisabled vm.currentVersion vm.block.isSome then
    (vm, .err .opDisabled)
  else if pop.alwaysIllegal then
    (vm, .err .reservedOpcode)
  else if pop.value > OP_16 then
    let vm' := { vm with numOps := vm.numOps + 1 }
    if vm'.numOps > maxOpsPerScript then
      (vm', .err .tooManyOperations)
    else if !vm'.isBranchExecuting && !pop.isConditional then
      (vm', .skip)
    else
      (vm', .dispatch)
  else if pop.data.length > MaxScriptElementSize then
    (vm, .err .elementTooBig)
  else if !vm.isBranchExecuting && !pop.isConditional then
    (vm, .skip)
  else
    (vm, .dispatch)

/-- Modelled from the spec: the stack's byte-array-to-boolean decoding used
by `dstack.PopBool` (`stack.go` is not under the given source); the standard
decoding: false exactly when every byte is zero, except that the last byte
may be 0x80 (negative zero). -/
def asBool : List Nat → Bool
  | [] => false
  | [b] => !(b == 0 || b == 0x80)
  | b :: rest => b != 0 || asBool rest

/-- Method `(vm *Engine) CheckErrorCondition(finalScript bool) error`: requires a
drained execution stack, then a non-empty data stack, then pops the top data
element and interprets it as a boolean.  Returns the (possibly popped)
engine together with the error, `none` on success.  `finalScript` is read
nowhere in the body. -/
def Engine.CheckErrorCondition (vm : Engine) (finalScript : Bool) :
    Engine × Option ScriptError :=
  if !vm.estack.isEmpty then
    (vm, some .scriptUnfinished)
  else if vm.dstack.length < 1 then
    (vm, some .emptyStack)
  else
    let v := asBool (vm.dstack.headD [])
    let vm' := { vm with dstack := vm.dstack.tail }
    if !v then (vm', some .scriptFailed) else (vm', none)

/-- Method `(vm *Engine) PushScript(newScript []parsedOpcode)`: pushes a fresh
frame wrapping the parsed opcodes atop the execution stack. -/
def Engine.PushScript (vm : Engine) (newScript : List parsedOpcode) : Engine :=
  { vm with estack := ⟨newScript, 0, []⟩ :: vm.estack }

/-- Instrumentation of one `Execute` run: its returned error (`none` on
success) together with how many times it invoked `Step` and how many times
it invoked `CheckErrorCondition`. -/
structure ExecTrace where
  result : Option ScriptError
  stepCalls : Nat
  checkCalls : Nat
  deriving DecidableEq, Repr

/-- The `for !done` loop of `Execute`, instrumented with call counts and
bounded by fuel (the Go loop is unbounded; running out of fuel yields the
artificial `outOfFuel` result).  `stepF` abstracts `vm.Step()` (which
reaches into the external opcode handlers), `checkF` abstracts
`vm.CheckErrorCondition(true)` so the instrumentation counts its calls. -/
def ExecuteLoop (stepF : Engine → Except ScriptError (Bool × Engine))
    (checkF : Engine → Option ScriptError) :
    Nat → Engine → ExecTrace
  | 0, _ => ⟨some .outOfFuel, 0, 0⟩
  | fuel + 1, vm =>
    match stepF vm with
    | .error e => ⟨some e, 1, 0⟩
    | .ok (true, vm') => ⟨checkF vm', 1, 1⟩
    | .ok (false, vm') =>
      let t := ExecuteLoop stepF checkF fuel vm'
      ⟨t.result, t.stepCalls + 1, t.checkCalls⟩

/-- Method `(vm *Engine) Execute() error`: treats unknown script versions as
anyone-can-spend (immediate success), otherwise steps until done and
delegates to `CheckErrorCondition(true)`. -/
def Execute (stepF : Engine → Except ScriptError (Bool × Engine))
    (checkF : Engine → Option ScriptError) (fuel : Nat) (vm : Engine) :
    ExecTrace :=
  if !isKnownVersion vm.scriptVersionVal then
    ⟨none, 0, 0⟩
  else
    ExecuteLoop stepF checkF fuel vm

/-- Constant `bc.SigHashAll`. -/
def SigHashAll : Nat := 1
/-- Constant `bc.SigHashSingle`. -/
def SigHashSingle : Nat := 3
/-- Constant `bc.SigHashAnyOneCanPay`. -/
def SigHashAnyOneCanPay : Nat := 0x80

/-- Method `(vm *Engine) checkHashTypeEncoding(hashType bc.SigHashType) error`.
`bc.SigHashType` is a byte-sized hash type, so the Go complement-mask
`hashType & ^bc.SigHashAnyOneCanPay` is `hashType &&& 0x7F` (clear bit 7). -/
def Engine.checkHashTypeEncoding (vm : Engine) (hashType : Nat) :
    Option ScriptError :=
  if !vm.hasFlag ScriptVerifyStrictEncoding then
    none
  else
    let sigHashType := hashType &&& 0x7F
    if sigHashType < SigHashAll || sigHashType > SigHashSingle then
      some .invalidHashType
    else
      none

/-- Modelled from the spec: `stack.PushByteArray` (`stack.go` is not under
the given source); the top of the stack is the head of the list. -/
def stackPush (s : List (List Nat)) (x : List Nat) : List (List Nat) :=
  x :: s

/-- Modelled from the spec: `stack.PeekByteArray(i)` returns the i-th
element from the top (the caller has checked the bound). -/
def stackPeek (s : List (List Nat)) (i : Nat) : List Nat :=
  s.getD i []

/-- Modelled from the spec: `stack.DropN(n)` removes the top n elements. -/
def stackDropN (s : List (List Nat)) (n : Nat) : List (List Nat) :=
  s.drop n

/-- Function `getStack(stack *stack) [][]byte`: the stack's contents bottom-up
(`array[len(array)-i-1], _ = stack.PeekByteArray(int32(i))`). -/
def getStack (s : List (List Nat)) : List (List Nat) :=
  ((List.range s.length).map (fun i => stackPeek s i)).reverse

/-- Function `setStack(stack *stack, data [][]byte)`: drops the whole current
contents (`stack.DropN(stack.Depth())`), then pushes each element of `data`
in order. -/
def setStack (s : List (List Nat)) (data : List (List Nat)) :
    List (List Nat) :=
  data.foldl stackPush (stackDropN s s.length)

/-- Method `(vm *Engine) GetStack() [][]byte`. -/
def Engine.GetStack (vm : Engine) : List (List Nat) :=
  getStack vm.dstack

/-- Method `(vm *Engine) SetStack(data [][]byte)`. -/
def Engine.SetStack (vm : Engine) (data : List (List Nat)) : Engine :=
  { vm with dstack := setStack vm.dstack data }

/-- Method `(vm *Engine) GetAltStack() [][]byte`. -/
def Engine.GetAltStack (vm : Engine) : List (List Nat) :=
  getStack vm.astack

/-- Method `(vm *Engine) SetAltStack(data [][]byte)`. -/
def Engine.SetAltStack (vm : Engine) (data : List (List Nat)) : Engine :=
  { vm with astack := setStack vm.astack data }

/-- Method `(vm *Engine) Prepare(script []byte, args [][]byte, txIdx int) error`,
with the external parser (`parseScript`), version extractor
(`parseScriptVersion`) and numeric decoder (`makeScriptNum`, whose error is
swallowed) passed in as collaborator functions.  Go mutates the engine in
place and returns the error, so the model returns the post-call engine
paired with the error (`none` on success). -/
def Engine.Prepare (vm : Engine)
    (parseScriptF : List Nat → Except ScriptError (List parsedOpcode))
    (parseScriptVersionF : List parsedOpcode → List Nat)
    (makeScriptNumF : List Nat → Int)
    (script : List Nat) (args : List (List Nat)) (txIdx : Int) :
    Engine × Option ScriptError :=
  if txIdx < 0 ||
      (vm.tx.isSome && txIdx ≥ ((vm.tx.map (·.Inputs.length)).getD 0 : Int)) then
    (vm, some .invalidIndex)
  else
    let vm := { vm with txIdx := txIdx }
    let vm := { vm with dstack := [], estack := [] } -- dstack.Reset(); estack.Reset()
    let vm := { vm with dstack := args.foldl stackPush vm.dstack }
    if script.length > MaxProgramByteLength then
      (vm, some .longScript)
    else
      match parseScriptF script with
      | .error e => (vm, some e)
      | .ok parsedScript =>
        let sv := parseScriptVersionF parsedScript
        let vm := { vm with scriptVersion := sv,
                            scriptVersionVal := makeScriptNumF sv }
        let vm := vm.PushScript parsedScript
        ({ vm with numOps := 0 }, none)

/-- Constructor `newReusableEngine(tx *bc.TxData, block *bc.Block, flags ScriptFlags)`:
seeds `vm.available` from the transaction's output amounts and derives the
signature hasher when a transaction is present. -/
def newReusableEngine (tx : Option TxData) (block : Option Unit)
    (flags : Nat) : Engine :=
  { scriptVersion := []
    scriptVersionVal := 0
    estack := []
    dstack := []
    astack := []
    tx := tx
    block := block
    sigHasher := tx.isSome
    txIdx := 0
    numOps := 0
    flags := flags
    available := (tx.map (fun t => t.Outputs.map (·.Amount))).getD [] }

/-- Constructor `NewReusableEngine(tx *bc.TxData, flags ScriptFlags)`. -/
def NewReusableEngine (tx : Option TxData) (flags : Nat) : Engine :=
  newReusableEngine tx none flags

/-- The slice access `tx.Inputs[txIdx]` of `NewEngine`: in range it yields
the input, outside `[0, len(tx.Inputs))` Go panics at runtime, modelled as
the `runtimePanic` outcome. -/
def indexInputs (tx : TxData) (i : Int) : Except ScriptError TxInput :=
  if h : 0 ≤ i ∧ i.toNat < tx.Inputs.length then
    .ok (tx.Inputs.get ⟨i.toNat, h.2⟩)
  else
    .error .runtimePanic

/-- Constructor `NewEngine(scriptPubKey []byte, tx *bc.TxData, txIdx int, flags
ScriptFlags)`: builds a reusable engine, then calls
`vm.Prepare(scriptPubKey, tx.Inputs[txIdx].InputWitness, txIdx)` — the slice
access happens before any range validation of `txIdx`, so an out-of-range
index panics (`.error .runtimePanic`) instead of reaching Prepare's check. -/
def NewEngine
    (parseScriptF : List Nat → Except ScriptError (List parsedOpcode))
    (parseScriptVersionF : List parsedOpcode → List Nat)
    (makeScriptNumF : List Nat → Int)
    (scriptPubKey : List Nat) (tx : TxData) (txIdx : Int) (flags : Nat) :
    Except ScriptError (Engine × Option ScriptError) :=
  let vm := NewReusableEngine (some tx) flags
  match indexInputs tx txIdx with
  | .error e => .error e
  | .ok txin =>
    .ok (vm.Prepare parseScriptF parseScriptVersionF makeScriptNumF
          scriptPubKey txin.InputWitness txIdx)

/-! ## Theorems -/

/-- A concrete engine for instantiating the theorems: every field at its
zero value. -/
def baseEngine : Engine :=
  { scriptVersion := [], scriptVersionVal := 0, estack := [], dstack := [],
    astack := [], tx := none, block := none, sigHasher := false, txIdx := 0,
    numOps := 0, flags := 0, available := [] }

/-- A concrete engine whose top frame sits in an inactive conditional
branch (top condition tag `OpCond.ifFalse`). -/
def branchOffEngine : Engine :=
  { baseEngine with estack := [⟨[], 0, [OpCond.ifFalse]⟩] }

/-- A concrete opcode disabled for every version and context. -/
def popDisabled : parsedOpcode :=
  ⟨0x7e, [], fun _ _ => true, false, false⟩

/-- A concrete always-illegal (reserved), non-disabled opcode. -/
def popIllegal : parsedOpcode :=
  ⟨0x50, [], fun _ _ => false, true, false⟩

/-- C1: in `executeOpcode` a disabled opcode fails with `OpcodeDisabled` and
an always-illegal opcode fails with `ReservedOpcode`, for every engine state
— in particular even when the current conditional branch is not executing,
since both checks precede the branch-gating skip. -/
theorem executeOpcode_legality_unconditional (vm : Engine)
    (pop pop' : parsedOpcode)
    (hdis : pop.isDisabled vm.currentVersion vm.block.isSome = true)
    (hnodis : pop'.isDisabled vm.currentVersion vm.block.isSome = false)
    (hill : pop'.alwaysIllegal = true) :
    vm.executeOpcode pop = (vm, .err .opDisabled) ∧
    vm.executeOpcode pop' = (vm, .err .reservedOpcode) := by
  constructor
  · simp [Engine.executeOpcode, hdis]
  · simp [Engine.executeOpcode, hnodis, hill]

/-- Witness for C1: a disabled opcode and a reserved opcode inside an
inactive branch still fail with their legality errors. -/
theorem executeOpcode_legality_unconditional_witness :
    branchOffEngine.executeOpcode popDisabled
        = (branchOffEngine, .err .opDisabled) ∧
    branchOffEngine.executeOpcode popIllegal
        = (branchOffEngine, .err .reservedOpcode) :=
  executeOpcode_legality_unconditional branchOffEngine popDisabled popIllegal
    rfl rfl rfl

/-- C2: when the engine's cached script version is outside the known range,
`Execute` succeeds immediately: whatever the step function, the completion
check and the fuel, the result is success with zero `Step` invocations and
zero `CheckErrorCondition` invocations. -/
theorem execute_unknown_version_vacuous
    (stepF : Engine → Except ScriptError (Bool × Engine))
    (checkF : Engine → Option ScriptError) (fuel : Nat) (vm : Engine)
    (h : isKnownVersion vm.scriptVersionVal = false) :
    Execute stepF checkF fuel vm = ⟨none, 0, 0⟩ := by
  simp [Execute, h]

/-- Witness for C2: a version-3 engine with a step function that always
errors still succeeds without a single step. -/
theorem execute_unknown_version_vacuous_witness :
    Execute (fun _ => .error .scriptFailed) (fun _ => some .emptyStack) 5
        { baseEngine with scriptVersionVal := 3 } = ⟨none, 0, 0⟩ :=
  execute_unknown_version_vacuous _ _ 5
    { baseEngine with scriptVersionVal := 3 } rfl

/-- C5: `CheckErrorCondition` returns `ScriptUnfinished` whenever the
execution stack is non-empty; otherwise `EmptyStack` whenever the data stack
is empty; otherwise it pops the top data element, failing with
`ScriptFailed` exactly when it decodes as boolean false — and the
`finalScript` parameter never alters the result. -/
theorem checkErrorCondition_spec (vm : Engine) (f f' : Bool) :
    vm.CheckErrorCondition f = vm.CheckErrorCondition f' ∧
    vm.CheckErrorCondition f =
      (match vm.estack, vm.dstack with
       | _ :: _, _ => (vm, some .scriptUnfinished)
       | [], [] => (vm, some .emptyStack)
       | [], top :: rest =>
         ({ vm with dstack := rest },
          if asBool top then none else some .scriptFailed)) := by
  obtain ⟨sv, svv, es, ds, as_, tx, bl, sh, ti, no, fl, av⟩ := vm
  cases es <;> cases ds <;>
    simp [Engine.CheckErrorCondition] <;>
    split <;> simp_all

/-- A concrete legal non-push opcode (value above `OP_16`), not
conditional. -/
def popOperation : parsedOpcode :=
  ⟨0x76, [], fun _ _ => false, false, false⟩

/-- A concrete legal data-push opcode whose payload exceeds
`MaxScriptElementSize`. -/
def popBigPush : parsedOpcode :=
  ⟨0x4e, List.replicate (MaxScriptElementSize + 1) 0, fun _ _ => false,
    false, false⟩

/-- C3: cost accounting in `executeOpcode` for every engine state (hence
regardless of branch state), for any opcode passing the legality checks: a
non-push opcode (value above `OP_16`) increments the op counter and fails
with `TooManyOperations` exactly when the incremented counter exceeds
`maxOpsPerScript`; a data push leaves the counter alone and fails with
`ElementTooBig` exactly when its payload exceeds `MaxScriptElementSize`. -/
theorem executeOpcode_cost_accounting (vm : Engine) (pop : parsedOpcode)
    (hdis : pop.isDisabled vm.currentVersion vm.block.isSome = false)
    (hill : pop.alwaysIllegal = false) :
    (pop.value > OP_16 →
      (vm.executeOpcode pop).1.numOps = vm.numOps + 1 ∧
      ((vm.executeOpcode pop).2 = .err .tooManyOperations ↔
        vm.numOps + 1 > maxOpsPerScript)) ∧
    (pop.value ≤ OP_16 →
      (vm.executeOpcode pop).1.numOps = vm.numOps ∧
      ((vm.executeOpcode pop).2 = .err .elementTooBig ↔
        pop.data.length > MaxScriptElementSize)) := by
  constructor
  · intro hv
    have hv' : ¬ pop.value ≤ OP_16 := by omega
    constructor
    · simp only [Engine.executeOpcode, hdis, hill]
      simp only [Bool.false_eq_true, if_false, if_pos hv]
      split <;> [skip; split] <;> rfl
    · simp only [Engine.executeOpcode, hdis, hill]
      simp only [Bool.false_eq_true, if_false, if_pos hv]
      constructor
      · intro h
        by_contra hle
        simp only [show ¬ (vm.numOps + 1 > maxOpsPerScript) from hle,
          if_false] at h
        split at h <;> simp_all
      · intro h
        simp [h]
  · intro hv
    have hv' : ¬ pop.value > OP_16 := by omega
    constructor
    · simp only [Engine.executeOpcode, hdis, hill]
      simp only [Bool.false_eq_true, if_false, if_neg hv']
      split <;> [rfl; split <;> rfl]
    · simp only [Engine.executeOpcode, hdis, hill]
      simp only [Bool.false_eq_true, if_false, if_neg hv']
      constructor
      · intro h
        by_contra hle
        simp only [show ¬ (pop.data.length > MaxScriptElementSize) from hle,
          if_false] at h
        split at h <;> simp_all
      · intro h
        simp [h]

/-- Witness for C3: inside an inactive branch, a non-push opcode still
charges the op counter, and an oversized push still fails. -/
theorem executeOpcode_cost_accounting_witness :
    (branchOffEngine.executeOpcode popOperation).1.numOps
        = branchOffEngine.numOps + 1 ∧
    (branchOffEngine.executeOpcode popBigPush).2 = .err .elementTooBig :=
  ⟨((executeOpcode_cost_accounting branchOffEngine popOperation rfl rfl).1
      (by decide)).1,
   (((executeOpcode_cost_accounting branchOffEngine popBigPush rfl rfl).2
      (by decide)).2).mpr (by simp [popBigPush])⟩

/-- A concrete legal conditional opcode (value above `OP_16`). -/
def popConditional : parsedOpcode :=
  ⟨0x63, [], fun _ _ => false, false, true⟩

/-- C4: branch gating in `executeOpcode`.  When the top frame's condition
stack has a top tag that is not one of the active tags, an opcode passing
the legality and cost checks is skipped (no dispatch) if it is not
conditional, and dispatched if it is conditional. -/
theorem executeOpcode_branch_gating (vm : Engine) (pop pop' : parsedOpcode)
    (v : OpCond)
    (htop : (estackPeek vm.estack).condStack.getLast? = some v)
    (hv1 : v ≠ OpCond.ifTrue) (hv2 : v ≠ OpCond.whileTrue)
    (hdis : pop.isDisabled vm.currentVersion vm.block.isSome = false)
    (hill : pop.alwaysIllegal = false)
    (hops : vm.numOps + 1 ≤ maxOpsPerScript)
    (hsize : pop.data.length ≤ MaxScriptElementSize)
    (hnc : pop.isConditional = false)
    (hdis' : pop'.isDisabled vm.currentVersion vm.block.isSome = false)
    (hill' : pop'.alwaysIllegal = false)
    (hsize' : pop'.data.length ≤ MaxScriptElementSize)
    (hc : pop'.isConditional = true) :
    (vm.executeOpcode pop).2 = .skip ∧
    (vm.executeOpcode pop').2 = .dispatch := by
  have hbr : vm.isBranchExecuting = false := by
    simp only [Engine.isBranchExecuting, htop]
    cases v <;> simp_all
  have hbr' : ∀ n,
      ({ vm with numOps := n } : Engine).isBranchExecuting = false := by
    intro n
    simpa [Engine.isBranchExecuting] using hbr
  constructor
  · simp only [Engine.executeOpcode, hdis, hill]
    simp only [Bool.false_eq_true, if_false]
    split
    · rw [if_neg (by omega), if_pos (by simp [hbr', hnc])]
    · rw [if_neg (by omega), if_pos (by simp [hbr, hnc])]
  · simp only [Engine.executeOpcode, hdis', hill']
    simp only [Bool.false_eq_true, if_false]
    split
    · split
      · omega
      · rw [if_neg (by simp [hc])]
    · rw [if_neg (by omega), if_neg (by simp [hc])]

/-- Witness for C4: in an inactive branch an ordinary opcode is skipped
while a conditional opcode is dispatched. -/
theorem executeOpcode_branch_gating_witness :
    (branchOffEngine.executeOpcode popOperation).2 = .skip ∧
    (branchOffEngine.executeOpcode popConditional).2 = .dispatch :=
  executeOpcode_branch_gating branchOffEngine popOperation popConditional
    OpCond.ifFalse rfl (by decide) (by decide) rfl rfl (by decide)
    (by decide) rfl rfl rfl (by decide) rfl

/-- A two-input, one-output transaction for instantiating the reuse
theorems. -/
def tx21 : TxData :=
  ⟨[⟨[]⟩, ⟨[[2]]⟩], [⟨5⟩]⟩

/-- The shape of a successful `Prepare`: the returned engine differs from
the input engine exactly in the input index, the two reset stacks, the
cached script version and the zeroed op counter. -/
theorem prepare_success_shape (vm : Engine)
    (pF : List Nat → Except ScriptError (List parsedOpcode))
    (pvF : List parsedOpcode → List Nat) (msF : List Nat → Int)
    (script : List Nat) (args : List (List Nat)) (txIdx : Int)
    (hok : (vm.Prepare pF pvF msF script args txIdx).2 = none) :
    ∃ parsed, pF script = .ok parsed ∧
      vm.Prepare pF pvF msF script args txIdx =
        ({ vm with txIdx := txIdx,
                   dstack := args.foldl stackPush [],
                   estack := [⟨parsed, 0, []⟩],
                   scriptVersion := pvF parsed,
                   scriptVersionVal := msF (pvF parsed),
                   numOps := 0 }, none) := by
  rw [Engine.Prepare] at hok ⊢
  split at hok
  · simp at hok
  · split at hok
    · simp at hok
    · rename_i h1 h2
      rw [if_neg h1, if_neg h2]
      cases hps : pF script with
      | error e =>
        rw [hps] at hok
        simp at hok
      | ok parsed =>
        exact ⟨parsed, rfl, rfl⟩

/-- C6: `Prepare` never touches `vm.available` (which `newReusableEngine`
seeds from the transaction's output amounts), while it resets the data stack
to exactly the pushed arguments and the execution stack to the single fresh
frame — so a value written to `available` while validating input i is still
there when `Prepare` is called for input i+1 on the same engine. -/
theorem prepare_preserves_available (vm : Engine)
    (pF : List Nat → Except ScriptError (List parsedOpcode))
    (pvF : List parsedOpcode → List Nat) (msF : List Nat → Int)
    (script : List Nat) (args : List (List Nat)) (txIdx : Int)
    (hok : (vm.Prepare pF pvF msF script args txIdx).2 = none) :
    (∀ tx block flags, (newReusableEngine (some tx) block flags).available
        = tx.Outputs.map (fun o => o.Amount)) ∧
    (vm.Prepare pF pvF msF script args txIdx).1.available = vm.available ∧
    (vm.Prepare pF pvF msF script args txIdx).1.dstack
        = args.foldl stackPush [] ∧
    ∃ parsed, pF script = .ok parsed ∧
      (vm.Prepare pF pvF msF script args txIdx).1.estack
          = [⟨parsed, 0, []⟩] := by
  obtain ⟨parsed, hps, heq⟩ :=
    prepare_success_shape vm pF pvF msF script args txIdx hok
  exact ⟨fun tx block flags => rfl, by rw [heq], by rw [heq],
    parsed, hps, by rw [heq]⟩

/-- Witness for C6: an engine whose `available` was mutated to `[3]` while
validating input 0 still has `available = [3]` after `Prepare` for input 1,
with both stacks reset. -/
theorem prepare_preserves_available_witness :
    (({ NewReusableEngine (some tx21) 0 with
          available := [3], dstack := [[9]] } : Engine).Prepare
        (fun _ => .ok []) (fun _ => []) (fun _ => 0)
        [0x51] [[1]] 1).1.available = [3] :=
  (prepare_preserves_available
    { NewReusableEngine (some tx21) 0 with
        available := [3], dstack := [[9]] }
    (fun _ => .ok []) (fun _ => []) (fun _ => 0)
    [0x51] [[1]] 1 rfl).2.1

/-- The claim's phrasing of the strict-encoding mask: clear the
any-one-can-pay bit (bit 7) from the hash type. -/
def clearAnyOneCanPay (h : Nat) : Nat :=
  if h.testBit 7 then h - 0x80 else h

set_option maxRecDepth 4000 in
/-- On byte-sized hash types, the engine's mask `&&& 0x7F` is exactly
clearing the any-one-can-pay bit. -/
theorem land_mask_clears_anyOneCanPay (h : Nat) (hw : h < 256) :
    h &&& 0x7F = clearAnyOneCanPay h := by
  have hall : ∀ x < 256, x &&& 0x7F = clearAnyOneCanPay x := by decide
  exact hall h hw

/-- C7: `checkHashTypeEncoding` is a no-op when the strict-encoding flag is
unset; when set, it clears the any-one-can-pay bit and fails with
`InvalidHashType` exactly when the remaining value lies below `SigHashAll`
or above `SigHashSingle`. -/
theorem checkHashTypeEncoding_spec (vm : Engine) (hashType : Nat)
    (hw : hashType < 256) :
    (vm.hasFlag ScriptVerifyStrictEncoding = false →
      vm.checkHashTypeEncoding hashType = none) ∧
    (vm.hasFlag ScriptVerifyStrictEncoding = true →
      (vm.checkHashTypeEncoding hashType = some .invalidHashType ↔
        (clearAnyOneCanPay hashType < SigHashAll ∨
          clearAnyOneCanPay hashType > SigHashSingle)) ∧
      (vm.checkHashTypeEncoding hashType = none ↔
        ¬(clearAnyOneCanPay hashType < SigHashAll ∨
          clearAnyOneCanPay hashType > SigHashSingle))) := by
  rw [Engine.checkHashTypeEncoding]
  rw [land_mask_clears_anyOneCanPay hashType hw]
  constructor
  · intro hf
    simp [hf]
  · intro hf
    simp only [hf, Bool.not_true, Bool.false_eq_true, if_false]
    by_cases hrange : clearAnyOneCanPay hashType < SigHashAll ∨
        clearAnyOneCanPay hashType > SigHashSingle
    · rw [if_pos (by simpa using hrange)]
      simp [hrange]
    · rw [if_neg (by simpa using hrange)]
      simp [hrange]

/-- Witness for C7: with strict encoding on, hash type 0x82 (any-one-can-pay
plus SigHashNone) passes; with strict encoding off, even 0x80 passes. -/
theorem checkHashTypeEncoding_spec_witness :
    ({ baseEngine with flags := 32 } : Engine).checkHashTypeEncoding 0x82
        = none ∧
    baseEngine.checkHashTypeEncoding 0x80 = none :=
  ⟨(((checkHashTypeEncoding_spec { baseEngine with flags := 32 } 0x82
      (by decide)).2 rfl).2).mpr (by decide),
   (checkHashTypeEncoding_spec baseEngine 0x80 (by decide)).1 rfl⟩

/-- Reading the whole stack via repeated `Peek` from the top, as `getStack`
does, recovers the stack. -/
theorem map_stackPeek_range (s : List (List Nat)) :
    (List.range s.length).map (fun i => stackPeek s i) = s := by
  apply List.ext_getElem
  · simp
  · intro n h1 h2
    simp only [List.getElem_map, List.getElem_range, stackPeek]
    exact List.getD_eq_getElem s [] h2

/-- Reading via `getStack` lists the stack bottom-up. -/
theorem getStack_eq_reverse (s : List (List Nat)) :
    getStack s = s.reverse := by
  rw [getStack, map_stackPeek_range]

/-- Pushing a list of elements in order onto an accumulator. -/
theorem foldl_stackPush (data acc : List (List Nat)) :
    data.foldl stackPush acc = data.reverse ++ acc := by
  induction data generalizing acc with
  | nil => simp
  | cons a t ih => simp [stackPush, ih]

/-- Writing via `setStack` replaces the whole contents: the result holds exactly the
given elements, last element on top. -/
theorem setStack_eq (s data : List (List Nat)) :
    setStack s data = data.reverse := by
  rw [setStack, stackDropN, List.drop_length, foldl_stackPush,
    List.append_nil]

/-- C8: `SetStack` then `GetStack` returns the same bottom-to-top sequence,
whatever the stack's prior contents (`SetStack` drops everything first);
likewise for the alternate stack. -/
theorem setStack_getStack_roundtrip (vm : Engine) (data : List (List Nat))
    (hsize : ∀ d ∈ data, d.length ≤ MaxScriptElementSize) :
    (vm.SetStack data).GetStack = data ∧
    (vm.SetAltStack data).GetAltStack = data := by
  refine ⟨?_, ?_⟩ <;>
    · simp [Engine.SetStack, Engine.GetStack, Engine.SetAltStack,
        Engine.GetAltStack, getStack_eq_reverse, setStack_eq]

/-- Witness for C8: a two-element replacement round-trips on an engine with
non-empty prior stacks. -/
theorem setStack_getStack_roundtrip_witness :
    (({ baseEngine with dstack := [[9]], astack := [[8]] } : Engine).SetStack
        [[1], [2, 3]]).GetStack = [[1], [2, 3]] :=
  (setStack_getStack_roundtrip
    { baseEngine with dstack := [[9]], astack := [[8]] }
    [[1], [2, 3]] (by decide)).1

/-- A one-input, no-output transaction for the index theorems. -/
def tx10 : TxData :=
  ⟨[⟨[]⟩], []⟩

/-- The Boolean index guard of `Prepare`, as a proposition. -/
theorem prepare_guard_iff (vm : Engine) (txIdx : Int) :
    (decide (txIdx < 0) || (vm.tx.isSome &&
      decide (txIdx ≥ ((vm.tx.map (fun t => (t.Inputs.length : Int))).getD 0))))
        = true ↔
    (txIdx < 0 ∨ (vm.tx.isSome = true ∧
      ((vm.tx.map (fun t => (t.Inputs.length : Int))).getD 0) ≤ txIdx)) := by
  simp [ge_iff_le]

/-- C9: `NewEngine` dereferences `tx.Inputs[txIdx]` before any range
validation of `txIdx`, so every out-of-range index is a runtime panic
(out-of-range slice access), not the `InvalidIndex` error that `Prepare`
itself would return for the same index with any arguments. -/
theorem newEngine_out_of_range_panics
    (pF : List Nat → Except ScriptError (List parsedOpcode))
    (pvF : List parsedOpcode → List Nat) (msF : List Nat → Int)
    (scriptPubKey : List Nat) (tx : TxData) (txIdx : Int) (flags : Nat)
    (h : txIdx < 0 ∨ (tx.Inputs.length : Int) ≤ txIdx) :
    NewEngine pF pvF msF scriptPubKey tx txIdx flags
        = .error .runtimePanic ∧
    ∀ args, ((NewReusableEngine (some tx) flags).Prepare pF pvF msF
        scriptPubKey args txIdx).2 = some .invalidIndex := by
  have hidx : ¬(0 ≤ txIdx ∧ txIdx.toNat < tx.Inputs.length) := by omega
  constructor
  · rw [NewEngine, indexInputs, dif_neg hidx]
  · intro args
    rcases h with h | h
    · rw [Engine.Prepare,
        if_pos ((prepare_guard_iff (NewReusableEngine (some tx) flags)
          txIdx).mpr (Or.inl h))]
    · rw [Engine.Prepare,
        if_pos ((prepare_guard_iff (NewReusableEngine (some tx) flags)
          txIdx).mpr (Or.inr ⟨rfl, by
            show ((Option.map _ (some tx)).getD 0) ≤ txIdx
            simpa using h⟩))]

/-- Witness for C9: with a one-input transaction and index 5, `NewEngine`
panics while `Prepare` would have returned `InvalidIndex`. -/
theorem newEngine_out_of_range_panics_witness :
    NewEngine (fun _ => .ok []) (fun _ => []) (fun _ => 0) [] tx10 5 0
        = .error .runtimePanic ∧
    ((NewReusableEngine (some tx10) 0).Prepare (fun _ => .ok [])
        (fun _ => []) (fun _ => 0) [] [] 5).2 = some .invalidIndex := by
  have h := newEngine_out_of_range_panics (fun _ => .ok []) (fun _ => [])
    (fun _ => 0) [] tx10 5 0 (by right; simp [tx10])
  exact ⟨h.1, h.2 []⟩

/-- A fresh engine over `tx10` with empty stacks, for the C10
counterexample. -/
def freshEngine10 : Engine :=
  NewReusableEngine (some tx10) 0

/-- A script one byte over `MaxProgramByteLength`. -/
def overlongScript : List Nat :=
  List.replicate (MaxProgramByteLength + 1) 0

/-- Counterexample to C10 as stated: a `Prepare` call that fails with
`ScriptTooLong` (not `InvalidIndex`) yet leaves both stacks unchanged — the
engine's stacks were empty and no arguments were pushed, so the
reset-plus-push happens to restore the prior contents.  Hence "stacks
unchanged iff the failure is InvalidIndex" is false. -/
theorem prepare_atomicity_counterexample :
    (freshEngine10.Prepare (fun _ => .ok []) (fun _ => []) (fun _ => 0)
        overlongScript [] 0).2 = some .longScript ∧
    (freshEngine10.Prepare (fun _ => .ok []) (fun _ => []) (fun _ => 0)
        overlongScript [] 0).1.dstack = freshEngine10.dstack ∧
    (freshEngine10.Prepare (fun _ => .ok []) (fun _ => []) (fun _ => 0)
        overlongScript [] 0).1.estack = freshEngine10.estack := by
  have hlen : overlongScript.length > MaxProgramByteLength := by
    rw [overlongScript, List.length_replicate]
    omega
  have hguard : ¬(decide ((0 : Int) < 0) || (freshEngine10.tx.isSome &&
      decide ((0 : Int) ≥
        ((freshEngine10.tx.map (fun t => (t.Inputs.length : Int))).getD 0))))
        = true := by
    rw [prepare_guard_iff]
    decide
  rw [Engine.Prepare, if_neg hguard, if_pos hlen]
  exact ⟨rfl, rfl, rfl⟩

/-- C10 amended: `Prepare`'s `InvalidIndex` failure happens before any
mutation (the engine is returned untouched), while every later failure
(`ScriptTooLong` or a parse error) happens after both stacks were reset and
the arguments pushed — the stacks then hold exactly the pushed arguments,
which may incidentally coincide with their prior contents. -/
theorem prepare_failure_states (vm : Engine)
    (pF : List Nat → Except ScriptError (List parsedOpcode))
    (pvF : List parsedOpcode → List Nat) (msF : List Nat → Int)
    (script : List Nat) (args : List (List Nat)) (txIdx : Int) :
    (txIdx < 0 ∨ (vm.tx.isSome = true ∧
        ((vm.tx.map (fun t => (t.Inputs.length : Int))).getD 0) ≤ txIdx) →
      vm.Prepare pF pvF msF script args txIdx = (vm, some .invalidIndex)) ∧
    (¬(txIdx < 0 ∨ (vm.tx.isSome = true ∧
        ((vm.tx.map (fun t => (t.Inputs.length : Int))).getD 0) ≤ txIdx)) →
      ∀ e, (vm.Prepare pF pvF msF script args txIdx).2 = some e →
        (vm.Prepare pF pvF msF script args txIdx).1.dstack
            = args.foldl stackPush [] ∧
        (vm.Prepare pF pvF msF script args txIdx).1.estack = []) := by
  constructor
  · intro h
    rw [Engine.Prepare, if_pos ((prepare_guard_iff vm txIdx).mpr h)]
  · intro h e
    rw [Engine.Prepare,
      if_neg (fun hcond => h ((prepare_guard_iff vm txIdx).mp hcond))]
    split
    · intro _
      exact ⟨rfl, rfl⟩
    · cases hps : pF script with
      | error e' =>
        intro _
        exact ⟨rfl, rfl⟩
      | ok parsed =>
        intro hsome
        simp at hsome

/-- Witness for C10's amended statement: an invalid-index failure leaves a
non-empty data stack untouched, while a parse failure on the same engine
leaves the stacks holding exactly the pushed arguments. -/
theorem prepare_failure_states_witness :
    (({ freshEngine10 with dstack := [[9]] } : Engine).Prepare
        (fun _ => .ok []) (fun _ => []) (fun _ => 0) [] [] 1)
      = ({ freshEngine10 with dstack := [[9]] }, some .invalidIndex) ∧
    (({ freshEngine10 with dstack := [[9]] } : Engine).Prepare
        (fun _ => .error .parseError) (fun _ => []) (fun _ => 0)
        [] [[4]] 0).1.dstack = [[4]] := by
  constructor
  · exact (prepare_failure_states { freshEngine10 with dstack := [[9]] }
      (fun _ => .ok []) (fun _ => []) (fun _ => 0) [] [] 1).1
      (Or.inr ⟨rfl, by
        simp [freshEngine10, NewReusableEngine, newReusableEngine, tx10]⟩)
  · have h := (prepare_failure_states { freshEngine10 with dstack := [[9]] }
      (fun _ => .error .parseError) (fun _ => []) (fun _ => 0)
      [] [[4]] 0).2 (by
        simp [freshEngine10, NewReusableEngine, newReusableEngine, tx10])
      .parseError rfl
    simpa [stackPush] using h.1

end TxScript
